import Mathlib

/-!
Shallow embedding of the Gaze extension's core numeric components, translated
from the JavaScript sources (scroll controller, fixation detector, calibration
manager, popup settings validation).  JavaScript numbers are modelled as real
numbers; exact, DOM-free arithmetic (the popup validator and the calibration
point layout) is modelled over the rationals so that it stays decidable.
-/

namespace Gaze

noncomputable section

open scoped Classical

/-! ### Settings and constants (src/unnamed/part_003, scroll controller) -/

/-- The scroll-controller settings object (constructor of `ScrollController`). -/
structure Settings where
  maxScrollSpeed : ℝ
  maxUpwardSpeed : ℝ
  sensitivity : ℝ
  upperZoneThreshold : ℝ
  lowerZoneThreshold : ℝ
  confidenceThreshold : ℝ

/-- Default settings (`DEFAULT_MAX_SCROLL_SPEED` etc. in part_003). -/
def defaultSettings : Settings :=
  { maxScrollSpeed := 800
    maxUpwardSpeed := 400
    sensitivity := 50
    upperZoneThreshold := 0.30
    lowerZoneThreshold := 0.70
    confidenceThreshold := 0.6 }

/-- `VELOCITY_SMOOTHING_FACTOR`: EMA smoothing factor.  The source stores it in
`this.smoothingFactor`, assigns it once in the constructor and never
reassigns it, so it is embedded as a constant. -/
def VELOCITY_SMOOTHING_FACTOR : ℝ := 0.15

/-- `MIN_SCROLL_DELTA`: minimum scroll delta (px) that is actually applied. -/
def MIN_SCROLL_DELTA : ℝ := 0.1

/-- `UPWARD_POWER_CURVE`: power curve exponent for upward scrolling. -/
def UPWARD_POWER_CURVE : ℝ := 0.6

/-- `DOWNWARD_POWER_CURVE`: power curve exponent for downward scrolling. -/
def DOWNWARD_POWER_CURVE : ℝ := 0.8

/-- `UPWARD_MULTIPLIER`: extra multiplier for upward scrolling. -/
def UPWARD_MULTIPLIER : ℝ := 1.5

/-- `SENSITIVITY_BASELINE`: baseline sensitivity for normalisation. -/
def SENSITIVITY_BASELINE : ℝ := 50

/-! ### `calculateVelocity` (part_003 lines 188-220) -/

/-- Upper-zone branch of `calculateVelocity` (scroll up). -/
def upperVelocity (s : Settings) (normalizedY : ℝ) : ℝ :=
  let zoneDistance := (s.upperZoneThreshold - normalizedY) / s.upperZoneThreshold
  let powerCurve := zoneDistance ^ UPWARD_POWER_CURVE
  let rawVelocity := -powerCurve * s.maxUpwardSpeed * UPWARD_MULTIPLIER
  rawVelocity * (s.sensitivity / SENSITIVITY_BASELINE)

/-- Lower-zone branch of `calculateVelocity` (scroll down). -/
def lowerVelocity (s : Settings) (normalizedY : ℝ) : ℝ :=
  let zoneDistance := (normalizedY - s.lowerZoneThreshold) / (1 - s.lowerZoneThreshold)
  let powerCurve := zoneDistance ^ DOWNWARD_POWER_CURVE
  let rawVelocity := powerCurve * s.maxScrollSpeed
  rawVelocity * (s.sensitivity / SENSITIVITY_BASELINE)

/-- `ScrollController.calculateVelocity`: zone-based velocity from the
normalised gaze height.  Negative means scroll up, positive scroll down. -/
def calculateVelocity (s : Settings) (normalizedY : ℝ) : ℝ :=
  if normalizedY < s.upperZoneThreshold then
    upperVelocity s normalizedY
  else if s.lowerZoneThreshold < normalizedY then
    lowerVelocity s normalizedY
  else
    0

/-! ### Fixation detector (src/unnamed/part_006, src/content/fixation-detector.js) -/

/-- A fixation record (`this.currentFixation` in `FixationDetector.update`). -/
structure Fixation where
  x : ℝ
  y : ℝ
  normalizedX : ℝ
  normalizedY : ℝ
  confidence : ℝ
  duration : ℝ

/-- A raw gaze prediction fed to `FixationDetector.update`. -/
structure GazePrediction where
  x : ℝ
  y : ℝ
  confidence : ℝ

/-- A buffered gaze sample: the prediction plus the arrival timestamp. -/
structure GazeSample where
  x : ℝ
  y : ℝ
  confidence : ℝ
  timestamp : ℝ
deriving Inhabited

/-- The `reason` tag of a non-fixating result. -/
inductive FixationReason where
  | low_confidence
  | high_dispersion
deriving DecidableEq

/-- The object returned by `FixationDetector.update`; absent JS fields are
`none`. -/
structure FixationResult where
  isFixating : Bool
  fixation : Option Fixation := none
  reason : Option FixationReason := none
  confidence : Option ℝ := none
  dispersion : Option (ℝ × ℝ) := none

/-- `MIN_SAMPLES_FOR_FIXATION`: minimum number of samples in the window. -/
def MIN_SAMPLES_FOR_FIXATION : ℕ := 3

/-- State of the fixation detector. -/
structure FixationDetector where
  windowSize : ℝ
  dispersionThreshold : ℝ
  confidenceThreshold : ℝ
  gazeBuffer : List GazeSample
  currentFixation : Option Fixation
  isFixating : Bool

/-- Detector constructed with default options. -/
def mkFixationDetector : FixationDetector :=
  { windowSize := 250
    dispersionThreshold := 50
    confidenceThreshold := 0.6
    gazeBuffer := []
    currentFixation := none
    isFixating := false }

/-- The buffer after the push-and-evict prologue of `update`: append the new
sample (stamped `now`) and drop samples older than `windowSize`. -/
def windowAfter (fd : FixationDetector) (p : GazePrediction) (now : ℝ) : List GazeSample :=
  let sample : GazeSample :=
    { x := p.x, y := p.y, confidence := p.confidence, timestamp := now }
  (fd.gazeBuffer ++ [sample]).filter
    (fun s => decide (now - s.timestamp ≤ fd.windowSize))

/-- Mean confidence over the buffer (the `reduce` in `update`). -/
def avgConfidence (buffer : List GazeSample) : ℝ :=
  buffer.foldl (fun sum s => sum + s.confidence) 0 / buffer.length

/-- Return value of `calculateDispersion`. -/
structure DispersionData where
  dispersionX : ℝ
  dispersionY : ℝ
  centroidX : ℝ
  centroidY : ℝ

/-- `FixationDetector.calculateDispersion`: centroid and per-axis population
standard deviation of the buffer. -/
def calculateDispersion (buffer : List GazeSample) : DispersionData :=
  let n : ℝ := buffer.length
  let centroidX := buffer.foldl (fun sum s => sum + s.x) 0 / n
  let centroidY := buffer.foldl (fun sum s => sum + s.y) 0 / n
  let varianceX := buffer.foldl (fun sum s => sum + (s.x - centroidX) ^ 2) 0 / n
  let varianceY := buffer.foldl (fun sum s => sum + (s.y - centroidY) ^ 2) 0 / n
  { dispersionX := Real.sqrt varianceX
    dispersionY := Real.sqrt varianceY
    centroidX := centroidX
    centroidY := centroidY }

/-- `FixationDetector.update`: push the sample, evict stale samples, then
classify the window.  `innerWidth`/`innerHeight` are the viewport dimensions
read from `window` in the source. -/
def FixationDetector.update (fd : FixationDetector) (p : GazePrediction)
    (now innerWidth innerHeight : ℝ) : FixationDetector × FixationResult :=
  let buffer := windowAfter fd p now
  if buffer.length < MIN_SAMPLES_FOR_FIXATION then
    ({ fd with gazeBuffer := buffer, isFixating := false, currentFixation := none },
      { isFixating := false })
  else
    let avg := avgConfidence buffer
    if avg < fd.confidenceThreshold then
      ({ fd with gazeBuffer := buffer, isFixating := false, currentFixation := none },
        { isFixating := false, reason := some FixationReason.low_confidence,
          confidence := some avg })
    else
      let d := calculateDispersion buffer
      if d.dispersionX < fd.dispersionThreshold ∧ d.dispersionY < fd.dispersionThreshold then
        let fix : Fixation :=
          { x := d.centroidX
            y := d.centroidY
            normalizedX := d.centroidX / innerWidth
            normalizedY := d.centroidY / innerHeight
            confidence := avg
            duration := now - buffer.headI.timestamp }
        ({ fd with gazeBuffer := buffer, isFixating := true, currentFixation := some fix },
          { isFixating := true, fixation := some fix,
            dispersion := some (d.dispersionX, d.dispersionY) })
      else
        ({ fd with gazeBuffer := buffer, isFixating := false, currentFixation := none },
          { isFixating := false, reason := some FixationReason.high_dispersion,
            dispersion := some (d.dispersionX, d.dispersionY) })

/-! ### Scroll controller state machine (src/unnamed/part_003) -/

/-- A scroll sink: the page window or a scrollable element.  Only the scroll
offset and the content/visible extents matter to the controller. -/
inductive ScrollTarget where
  | window (scrollY scrollHeight innerHeight : ℝ)
  | element (scrollTop scrollHeight clientHeight : ℝ)

/-- The clamped scroll-offset update performed by `applyScroll` on its target:
`newScroll = max(0, min(maxScroll, current + delta))`. -/
def ScrollTarget.applyDelta : ScrollTarget → ℝ → ScrollTarget
  | ScrollTarget.window scrollY scrollHeight innerHeight, delta =>
      ScrollTarget.window (max 0 (min (scrollHeight - innerHeight) (scrollY + delta)))
        scrollHeight innerHeight
  | ScrollTarget.element scrollTop scrollHeight clientHeight, delta =>
      ScrollTarget.element (max 0 (min (scrollHeight - clientHeight) (scrollTop + delta)))
        scrollHeight clientHeight

/-- The `this.stats` record of the scroll controller. -/
structure ScrollStats where
  frameRate : ℝ
  lastVelocity : ℝ
  lastConfidence : ℝ
  isFixating : Bool

/-- Mutable state of `ScrollController`.  `animationFrame` records whether a
frame callback is pending; `lastFrameTime` starts as JS `null`, modelled as 0
(it is only read after `start` overwrites it). -/
structure ScrollState where
  settings : Settings
  currentVelocity : ℝ
  targetVelocity : ℝ
  isActive : Bool
  isPaused : Bool
  lastFrameTime : ℝ
  animationFrame : Bool
  scrollTarget : Option ScrollTarget
  holdUntil : ℝ
  stats : ScrollStats

/-- The `ScrollController` constructor state. -/
def mkScrollController (s : Settings) : ScrollState :=
  { settings := s
    currentVelocity := 0
    targetVelocity := 0
    isActive := false
    isPaused := false
    lastFrameTime := 0
    animationFrame := false
    scrollTarget := none
    holdUntil := 0
    stats := { frameRate := 0, lastVelocity := 0, lastConfidence := 0, isFixating := false } }

/-- `ScrollController.stop`: deactivate, cancel the pending frame, zero both
velocities.  (It does not touch `scrollTarget`.) -/
def stop (s : ScrollState) : ScrollState :=
  { s with isActive := false, animationFrame := false, currentVelocity := 0, targetVelocity := 0 }

/-- `ScrollController.pause`. -/
def pause (s : ScrollState) : ScrollState :=
  { s with isPaused := true, targetVelocity := 0 }

/-- `ScrollController.resume`. -/
def resume (s : ScrollState) : ScrollState :=
  { s with isPaused := false, holdUntil := 0 }

/-- `ScrollController.triggerHold(duration)` called at instant `now`. -/
def triggerHold (s : ScrollState) (now duration : ℝ) : ScrollState :=
  { s with holdUntil := now + duration, targetVelocity := 0 }

/-- `ScrollController.updateSettings` (merges the new settings record). -/
def updateSettings (s : ScrollState) (newSettings : Settings) : ScrollState :=
  { s with settings := newSettings }

/-- `ScrollController.updateScrollTarget`: `findScrollableElements` scans the
DOM; the scan result (sorted by area, largest first) is passed in as
`scrollableElements` and `pageWindow` is the window fallback. -/
def updateScrollTarget (scrollableElements : List ScrollTarget) (pageWindow : ScrollTarget)
    (s : ScrollState) : ScrollState :=
  match scrollableElements with
  | t :: _ => { s with scrollTarget := some t }
  | [] => { s with scrollTarget := some pageWindow }

/-- `ScrollController.applyScroll(delta)`: resolve the target if absent, then
apply the clamped delta to it. -/
def applyScroll (scrollableElements : List ScrollTarget) (pageWindow : ScrollTarget)
    (s : ScrollState) (delta : ℝ) : ScrollState :=
  let s := if s.scrollTarget.isNone then updateScrollTarget scrollableElements pageWindow s else s
  match s.scrollTarget with
  | some t => { s with scrollTarget := some (t.applyDelta delta) }
  | none => s

/-- One iteration of `ScrollController.runScrollLoop` at instant `now`:
EMA-smooth the velocity, then scroll unless paused or inside the hold
period, then schedule the next frame. -/
def runScrollTick (scrollableElements : List ScrollTarget) (pageWindow : ScrollTarget)
    (s : ScrollState) (now : ℝ) : ScrollState :=
  if s.isActive = false then s
  else
    let deltaTime := (now - s.lastFrameTime) / 1000
    let s1 := { s with
      lastFrameTime := now
      stats := { s.stats with frameRate := 1 / deltaTime }
      currentVelocity := s.currentVelocity * (1 - VELOCITY_SMOOTHING_FACTOR) +
        s.targetVelocity * VELOCITY_SMOOTHING_FACTOR }
    let s2 :=
      if s1.holdUntil < now ∧ s1.isPaused = false then
        let scrollDelta := s1.currentVelocity * deltaTime
        if MIN_SCROLL_DELTA < |scrollDelta| then
          applyScroll scrollableElements pageWindow s1 scrollDelta
        else s1
      else s1
    { s2 with
      stats := { s2.stats with lastVelocity := s2.currentVelocity }
      animationFrame := true }

/-- `ScrollController.start` at instant `now`: activate, resolve the scroll
target, and run the first loop iteration. -/
def start (scrollableElements : List ScrollTarget) (pageWindow : ScrollTarget)
    (s : ScrollState) (now : ℝ) : ScrollState :=
  if s.isActive then s
  else
    runScrollTick scrollableElements pageWindow
      (updateScrollTarget scrollableElements pageWindow
        { s with isActive := true, isPaused := false, lastFrameTime := now }) now

/-- `ScrollController.updateFromGaze(fixationResult)` evaluated at instant
`now` (the source reads `performance.now()` for the hold check).  When
`isFixating` is true the source reads `fixationResult.fixation` without a
null check; detector outputs always carry one, so the impossible `none`
branch is modelled as a zero target. -/
def updateFromGaze (s : ScrollState) (fixationResult : FixationResult) (now : ℝ) : ScrollState :=
  if s.isPaused = true ∨ s.isActive = false then { s with targetVelocity := 0 }
  else if now < s.holdUntil then { s with targetVelocity := 0 }
  else
    let s := { s with stats := { s.stats with isFixating := fixationResult.isFixating } }
    if fixationResult.isFixating = false then { s with targetVelocity := 0 }
    else
      match fixationResult.fixation with
      | some fixation =>
        let s := { s with stats := { s.stats with lastConfidence := fixation.confidence } }
        if fixation.confidence < s.settings.confidenceThreshold then
          { s with targetVelocity := 0 }
        else
          { s with targetVelocity := calculateVelocity s.settings fixation.normalizedY }
      | none => { s with targetVelocity := 0 }

/-! ### Calibration manager (src/unnamed/part_005) -/

/-- `MAX_CALIBRATION_DURATION`: maximum time (ms) per calibration point. -/
def MAX_CALIBRATION_DURATION : ℝ := 3000

/-- `REQUIRED_GAZE_DURATION`: required accumulated on-target gaze time (ms). -/
def REQUIRED_GAZE_DURATION : ℝ := 700

/-- `GAZE_RADIUS`: maximum pixel distance from target for on-target gaze. -/
def GAZE_RADIUS : ℝ := 150

/-- `MIN_CONFIDENCE_FOR_CALIBRATION`: minimum sample confidence. -/
def MIN_CONFIDENCE_FOR_CALIBRATION : ℝ := 0.5

/-- `CALIBRATION_MARGIN`: inset of calibration points from the edges. -/
def CALIBRATION_MARGIN : ℚ := 0.15

/-- `CENTER_POSITION`: normalised centre coordinate. -/
def CENTER_POSITION : ℚ := 0.5

/-- A normalised calibration point. -/
structure CalPoint where
  x : ℚ
  y : ℚ
deriving DecidableEq

/-- `CalibrationManager.generateCalibrationPoints`: 5-point and 9-point
layouts; any other count leaves the pushed-to array empty. -/
def generateCalibrationPoints (numPoints : ℕ) : List CalPoint :=
  if numPoints = 5 then
    [ { x := CALIBRATION_MARGIN, y := CALIBRATION_MARGIN },
      { x := 1 - CALIBRATION_MARGIN, y := CALIBRATION_MARGIN },
      { x := CENTER_POSITION, y := CENTER_POSITION },
      { x := CALIBRATION_MARGIN, y := 1 - CALIBRATION_MARGIN },
      { x := 1 - CALIBRATION_MARGIN, y := 1 - CALIBRATION_MARGIN } ]
  else if numPoints = 9 then
    [ { x := CALIBRATION_MARGIN, y := CALIBRATION_MARGIN },
      { x := CENTER_POSITION, y := CALIBRATION_MARGIN },
      { x := 1 - CALIBRATION_MARGIN, y := CALIBRATION_MARGIN },
      { x := CALIBRATION_MARGIN, y := CENTER_POSITION },
      { x := CENTER_POSITION, y := CENTER_POSITION },
      { x := 1 - CALIBRATION_MARGIN, y := CENTER_POSITION },
      { x := CALIBRATION_MARGIN, y := 1 - CALIBRATION_MARGIN },
      { x := CENTER_POSITION, y := 1 - CALIBRATION_MARGIN },
      { x := 1 - CALIBRATION_MARGIN, y := 1 - CALIBRATION_MARGIN } ]
  else []

/-- Externally visible calibration-sequence events, in order. -/
inductive CalEvent where
  | showTarget (x y : ℚ)
  | collectPoint (x y : ℚ)
  | saveCalibration
  | completed
deriving DecidableEq

/-- `CalibrationManager.runCalibrationSequence` as its trace of externally
visible effects: for each point (in order) show the de-normalised target and
collect its data, then `completeCalibration` saves via the estimator and
reports completion. -/
def runCalibrationSequence (points : List CalPoint) (viewportWidth viewportHeight : ℚ) :
    List CalEvent :=
  (points.map (fun point =>
    [CalEvent.showTarget (point.x * viewportWidth) (point.y * viewportHeight),
      CalEvent.collectPoint (point.x * viewportWidth) (point.y * viewportHeight)])).flatten ++
    [CalEvent.saveCalibration, CalEvent.completed]

/-- Per-point progress state of `collectCalibrationData`'s `animate` loop. -/
structure CollectState where
  accumulatedGazeTime : ℝ
  lastUpdateTime : ℝ

/-- Outcome of one `animate` frame: the promise resolves (gaze-time complete
or timed out) or another frame is requested. -/
inductive CollectOutcome where
  | completed
  | timedOut
  | continued
deriving DecidableEq

/-- The `isLookingAtTarget` test of the `animate` callback. -/
def isLookingAtTarget (x y : ℝ) : Option GazePrediction → Prop
  | some g => MIN_CONFIDENCE_FOR_CALIBRATION < g.confidence ∧
      Real.sqrt ((g.x - x) * (g.x - x) + (g.y - y) * (g.y - y)) < GAZE_RADIUS
  | none => False

/-- The accumulator value after one `animate` frame: the frame delta is
accrued only while looking at the target. -/
def accumulatedAfter (x y : ℝ) (st : CollectState) (now : ℝ)
    (pred : Option GazePrediction) : ℝ :=
  if isLookingAtTarget x y pred then st.accumulatedGazeTime + (now - st.lastUpdateTime)
  else st.accumulatedGazeTime

/-- One frame of `collectCalibrationData`'s `animate` loop for the target at
`(x, y)`, started at `startTime`, running at instant `now` with the
estimator's latest prediction. -/
def collectStep (x y startTime : ℝ) (st : CollectState) (now : ℝ)
    (pred : Option GazePrediction) : CollectState × CollectOutcome :=
  let totalElapsed := now - startTime
  let accumulatedGazeTime := accumulatedAfter x y st now pred
  let progress := min (accumulatedGazeTime / REQUIRED_GAZE_DURATION) 1
  let st' : CollectState :=
    { accumulatedGazeTime := accumulatedGazeTime, lastUpdateTime := now }
  if 1 ≤ progress then (st', CollectOutcome.completed)
  else if MAX_CALIBRATION_DURATION < totalElapsed then (st', CollectOutcome.timedOut)
  else (st', CollectOutcome.continued)

/-- Run the `animate` loop over a finite list of observed frames (instant and
latest prediction); `none` means the loop was still pending after them. -/
def collectRun (x y startTime : ℝ) :
    CollectState → List (ℝ × Option GazePrediction) → Option CollectOutcome
  | _, [] => none
  | st, frame :: rest =>
    match collectStep x y startTime st frame.1 frame.2 with
    | (st', CollectOutcome.continued) => collectRun x y startTime st' rest
    | (_, o) => some o

/-! ### Popup settings validation (src/popup/popup.js) -/

/-- Keys of numeric settings handled by the popup. -/
inductive SettingKey where
  | maxScrollSpeed
  | maxUpwardSpeed
  | sensitivity
  | upperZoneThreshold
  | lowerZoneThreshold
  | confidenceThreshold
  | fixationWindow
deriving DecidableEq

/-- One entry of `VALIDATION_RULES`. -/
structure ValidationRule where
  min : ℚ
  max : ℚ
  step : ℚ
deriving DecidableEq

/-- `VALIDATION_RULES`: ranges and steps per setting key; keys without an
entry (an `undefined` lookup in JS) yield `none`. -/
def VALIDATION_RULES : SettingKey → Option ValidationRule
  | SettingKey.maxScrollSpeed => some { min := 200, max := 1600, step := 50 }
  | SettingKey.maxUpwardSpeed => some { min := 100, max := 800, step := 50 }
  | SettingKey.sensitivity => some { min := 10, max := 100, step := 5 }
  | SettingKey.upperZoneThreshold => some { min := 0.1, max := 0.4, step := 0.05 }
  | SettingKey.lowerZoneThreshold => some { min := 0.6, max := 0.9, step := 0.05 }
  | SettingKey.confidenceThreshold => some { min := 0.3, max := 0.9, step := 0.05 }
  | SettingKey.fixationWindow => none

/-- JS `Math.round`: nearest integer, ties toward positive infinity. -/
def jsRound (q : ℚ) : ℤ := ⌊q + 1/2⌋

/-- `parseFloat(v.toFixed(2))`: round to two decimal places.  (All values it
receives here are exact multiples of `0.05`, where every decimal rounding
convention agrees.) -/
def toFixed2 (q : ℚ) : ℚ := (jsRound (q * 100) : ℚ) / 100

/-- `validateSetting(key, value)`: clamp to the rule's range, round to the
nearest step, and for sub-unit steps fix the decimal representation. -/
def validateSetting (key : SettingKey) (value : ℚ) : ℚ :=
  match VALIDATION_RULES key with
  | none => value
  | some rules =>
    let validated := max rules.min (min rules.max value)
    let validated := (jsRound (validated / rules.step) : ℚ) * rules.step
    if rules.step < 1 then toFixed2 validated else validated

/-- Example scroll target used in concrete instantiations. -/
def examplePageWindow : ScrollTarget := ScrollTarget.window 0 2000 800

/-- Example state: freshly constructed controller holding a cached target. -/
def exampleCachedState : ScrollState :=
  { mkScrollController defaultSettings with scrollTarget := some examplePageWindow }

/-- Example state: controller that was paused and then stopped. -/
def examplePausedStopped : ScrollState :=
  stop (pause (mkScrollController defaultSettings))

/-- Example state: active controller with a nonzero current velocity. -/
def exampleActiveState : ScrollState :=
  { mkScrollController defaultSettings with isActive := true, currentVelocity := 100 }

/-! ### Preservation lemmas for the scroll loop -/

lemma updateScrollTarget_preserves (se : List ScrollTarget) (pw : ScrollTarget)
    (s : ScrollState) :
    (updateScrollTarget se pw s).targetVelocity = s.targetVelocity ∧
      (updateScrollTarget se pw s).currentVelocity = s.currentVelocity ∧
      (updateScrollTarget se pw s).isActive = s.isActive := by
  cases se <;> exact ⟨rfl, rfl, rfl⟩

lemma applyScroll_preserves (se : List ScrollTarget) (pw : ScrollTarget) (s : ScrollState)
    (delta : ℝ) :
    (applyScroll se pw s delta).targetVelocity = s.targetVelocity ∧
      (applyScroll se pw s delta).currentVelocity = s.currentVelocity ∧
      (applyScroll se pw s delta).isActive = s.isActive := by
  rcases hst : s.scrollTarget with _ | t
  · cases se <;> simp [applyScroll, updateScrollTarget, hst]
  · simp [applyScroll, updateScrollTarget, hst]

lemma runScrollTick_invariants (se : List ScrollTarget) (pw : ScrollTarget) (s : ScrollState)
    (now : ℝ) :
    (runScrollTick se pw s now).targetVelocity = s.targetVelocity ∧
      (runScrollTick se pw s now).isActive = s.isActive := by
  simp only [runScrollTick]
  split_ifs with h1 h2 h3
  · exact ⟨rfl, rfl⟩
  · refine ⟨(applyScroll_preserves _ _ _ _).1, (applyScroll_preserves _ _ _ _).2.2⟩
  · exact ⟨rfl, rfl⟩
  · exact ⟨rfl, rfl⟩

lemma runScrollTick_currentVelocity (se : List ScrollTarget) (pw : ScrollTarget)
    (s : ScrollState) (now : ℝ) (h : s.isActive = true) :
    (runScrollTick se pw s now).currentVelocity =
      s.currentVelocity * (1 - VELOCITY_SMOOTHING_FACTOR) +
        s.targetVelocity * VELOCITY_SMOOTHING_FACTOR := by
  simp only [runScrollTick]
  rw [if_neg (by simp [h])]
  split_ifs with h2 h3
  · exact (applyScroll_preserves _ _ _ _).2.1
  · rfl
  · rfl

lemma ema_fold (se : List ScrollTarget) (pw : ScrollTarget) :
    ∀ (times : List ℝ) (s : ScrollState), s.isActive = true →
      |(times.foldl (fun st t => runScrollTick se pw st t) s).currentVelocity -
          s.targetVelocity| =
        (1 - VELOCITY_SMOOTHING_FACTOR) ^ times.length *
          |s.currentVelocity - s.targetVelocity|
  | [], s, _ => by simp
  | t :: ts, s, h => by
    have hinv := runScrollTick_invariants se pw s t
    have hstep := runScrollTick_currentVelocity se pw s t h
    have ih := ema_fold se pw ts (runScrollTick se pw s t) (hinv.2.trans h)
    simp only [List.foldl_cons, List.length_cons] at ih ⊢
    rw [hinv.1, hstep] at ih
    rw [ih]
    have hdiff : s.currentVelocity * (1 - VELOCITY_SMOOTHING_FACTOR) +
          s.targetVelocity * VELOCITY_SMOOTHING_FACTOR - s.targetVelocity =
        (1 - VELOCITY_SMOOTHING_FACTOR) * (s.currentVelocity - s.targetVelocity) := by
      ring
    rw [hdiff, abs_mul,
      abs_of_pos (by norm_num [VELOCITY_SMOOTHING_FACTOR] :
        (0:ℝ) < 1 - VELOCITY_SMOOTHING_FACTOR)]
    ring

/-! ### C1: upper-zone velocity formula -/

/-- C1: for every `normalizedY` strictly below `upperZoneThreshold` (threshold
in `(0,1)`), `calculateVelocity` equals
`-zoneDistance ^ 0.6 * maxUpwardSpeed * 1.5 * (sensitivity / 50)` with
`zoneDistance = (upperZoneThreshold - normalizedY) / upperZoneThreshold`;
at `normalizedY = 0.15`, `upperZoneThreshold = 0.30`, `maxUpwardSpeed = 400`,
`sensitivity = 50` the value is approximately `-397.6` px/s (within 2 px/s). -/
theorem upperZone_velocity_formula :
    (∀ (s : Settings) (y : ℝ), 0 < s.upperZoneThreshold → s.upperZoneThreshold < 1 →
        y < s.upperZoneThreshold →
        calculateVelocity s y =
          -(((s.upperZoneThreshold - y) / s.upperZoneThreshold) ^ (0.6:ℝ)) *
            s.maxUpwardSpeed * 1.5 * (s.sensitivity / 50)) ∧
    |calculateVelocity defaultSettings 0.15 - (-397.6)| < 2 := by
  constructor
  · intro s y _ _ hy
    simp only [calculateVelocity, if_pos hy, upperVelocity, UPWARD_POWER_CURVE,
      UPWARD_MULTIPLIER, SENSITIVITY_BASELINE]
  · have hbr : calculateVelocity defaultSettings 0.15 =
        -((1/2:ℝ) ^ (0.6:ℝ)) * 400 * 1.5 * (50/50) := by
      simp only [calculateVelocity, defaultSettings, upperVelocity, UPWARD_POWER_CURVE,
        UPWARD_MULTIPLIER, SENSITIVITY_BASELINE]
      rw [if_pos (by norm_num)]
      norm_num
    have hx5 : ((1/2:ℝ) ^ (0.6:ℝ)) ^ (5:ℕ) = 1/8 := by
      rw [← Real.rpow_natCast ((1/2:ℝ) ^ (0.6:ℝ)) 5,
        ← Real.rpow_mul (by norm_num : (0:ℝ) ≤ 1/2)]
      have h35 : (0.6:ℝ) * ((5:ℕ):ℝ) = ((3:ℕ):ℝ) := by norm_num
      rw [h35, Real.rpow_natCast]
      norm_num
    have hxpos : (0:ℝ) < (1/2:ℝ) ^ (0.6:ℝ) := Real.rpow_pos_of_pos (by norm_num) _
    have hlb : (0.6594:ℝ) < (1/2:ℝ) ^ (0.6:ℝ) := by
      apply lt_of_pow_lt_pow_left₀ 5 hxpos.le
      rw [hx5]; norm_num
    have hub : (1/2:ℝ) ^ (0.6:ℝ) < 0.666 := by
      apply lt_of_pow_lt_pow_left₀ 5 (by norm_num : (0:ℝ) ≤ 0.666)
      rw [hx5]; norm_num
    rw [hbr, abs_lt]
    constructor <;> nlinarith [hlb, hub]

/-- Witness for C1: the formula instantiated at the spec's example point. -/
theorem upperZone_velocity_formula_witness :
    (0:ℝ) < defaultSettings.upperZoneThreshold ∧ defaultSettings.upperZoneThreshold < 1 ∧
      (0.15:ℝ) < defaultSettings.upperZoneThreshold ∧
      calculateVelocity defaultSettings 0.15 =
        -(((defaultSettings.upperZoneThreshold - 0.15) / defaultSettings.upperZoneThreshold) ^
            (0.6:ℝ)) * defaultSettings.maxUpwardSpeed * 1.5 *
          (defaultSettings.sensitivity / 50) :=
  ⟨by norm_num [defaultSettings], by norm_num [defaultSettings], by norm_num [defaultSettings],
    upperZone_velocity_formula.1 defaultSettings 0.15 (by norm_num [defaultSettings])
      (by norm_num [defaultSettings]) (by norm_num [defaultSettings])⟩

/-! ### C2: effect of `stop()` -/

/-- C2 counterexample: `stop()` zeroes the velocities but does not release the
cached scroll target — on a controller holding a cached target, the cache is
still populated after `stop()`. -/
theorem stop_keeps_cached_target :
    (stop exampleCachedState).scrollTarget ≠ none := by
  simp [stop, exampleCachedState, mkScrollController]

/-- C2 (amended): after any call to `stop()`, from any state, both
`currentVelocity` and `targetVelocity` equal 0, the controller is inactive and
the pending animation frame is cancelled; the cached `scrollTarget` is
retained unchanged (not released). -/
theorem stop_resets_velocities (s : ScrollState) :
    (stop s).currentVelocity = 0 ∧ (stop s).targetVelocity = 0 ∧
      (stop s).isActive = false ∧ (stop s).animationFrame = false ∧
      (stop s).scrollTarget = s.scrollTarget :=
  ⟨rfl, rfl, rfl, rfl, rfl⟩

/-! ### C7: `resume()` while stopped -/

/-- C7 counterexample: on a controller that was paused and then stopped,
`resume()` changes the observable state — `isPaused` flips from `true` to
`false`. -/
theorem resume_flips_isPaused :
    examplePausedStopped.isPaused = true ∧
      (resume examplePausedStopped).isPaused = false :=
  ⟨rfl, rfl⟩

/-- C7 (amended): calling `resume()` while stopped does not fail and does not
restart the controller: the controller stays inactive and every field except
`isPaused` and `holdUntil` is unchanged; `isPaused` is (re)set to `false` and
`holdUntil` to 0 unconditionally. -/
theorem resume_while_stopped (s : ScrollState) (h : s.isActive = false) :
    (resume s).isActive = false ∧
      (resume s).currentVelocity = s.currentVelocity ∧
      (resume s).targetVelocity = s.targetVelocity ∧
      (resume s).settings = s.settings ∧
      (resume s).scrollTarget = s.scrollTarget ∧
      (resume s).lastFrameTime = s.lastFrameTime ∧
      (resume s).animationFrame = s.animationFrame ∧
      (resume s).stats = s.stats ∧
      (resume s).isPaused = false ∧
      (resume s).holdUntil = 0 :=
  ⟨h, rfl, rfl, rfl, rfl, rfl, rfl, rfl, rfl, rfl⟩

/-- Witness for C7's amended theorem at the paused-then-stopped state. -/
theorem resume_while_stopped_witness :
    examplePausedStopped.isActive = false ∧
      (resume examplePausedStopped).isActive = false ∧
      (resume examplePausedStopped).isPaused = false :=
  ⟨rfl, (resume_while_stopped examplePausedStopped rfl).1,
    (resume_while_stopped examplePausedStopped rfl).2.2.2.2.2.2.2.2.1⟩

/-! ### C5: hold periods block scrolling -/

/-- C5: `triggerHold(d)` at instant `now` sets `holdUntil = now + d` and zeroes
the target velocity; for every gaze update at an instant strictly before
`holdUntil` the target velocity is forced to 0 whatever the fixation input,
and every scroll-loop tick strictly before `holdUntil` leaves the scroll
target (hence the scroll offset) untouched. -/
theorem triggerHold_blocks_scrolling :
    (∀ (s : ScrollState) (now duration : ℝ),
        (triggerHold s now duration).holdUntil = now + duration ∧
          (triggerHold s now duration).targetVelocity = 0) ∧
    (∀ (s : ScrollState) (fr : FixationResult) (now : ℝ), now < s.holdUntil →
        (updateFromGaze s fr now).targetVelocity = 0) ∧
    (∀ (s : ScrollState) (se : List ScrollTarget) (pw : ScrollTarget) (now : ℝ),
        now < s.holdUntil →
        (runScrollTick se pw s now).scrollTarget = s.scrollTarget) := by
  refine ⟨fun s now duration => ⟨rfl, rfl⟩, ?_, ?_⟩
  · intro s fr now h
    by_cases hA : s.isPaused = true ∨ s.isActive = false
    · simp only [updateFromGaze, if_pos hA]
    · simp only [updateFromGaze, if_neg hA, if_pos h]
  · intro s se pw now h
    have hnot : ¬ s.holdUntil < now := not_lt.2 h.le
    simp only [runScrollTick]
    split_ifs with h1 h2 h3
    · rfl
    · exact absurd h2.1 hnot
    · exact absurd h2.1 hnot
    · rfl

/-- Witness for C5 at a fresh controller held at time 100 for 2000 ms. -/
theorem triggerHold_blocks_scrolling_witness :
    (triggerHold (mkScrollController defaultSettings) 100 2000).holdUntil = 100 + 2000 ∧
      ((500:ℝ) < (triggerHold (mkScrollController defaultSettings) 100 2000).holdUntil) ∧
      (updateFromGaze (triggerHold (mkScrollController defaultSettings) 100 2000)
          { isFixating := true } 500).targetVelocity = 0 ∧
      (runScrollTick [] examplePageWindow
          (triggerHold (mkScrollController defaultSettings) 100 2000) 500).scrollTarget =
        (triggerHold (mkScrollController defaultSettings) 100 2000).scrollTarget :=
  ⟨(triggerHold_blocks_scrolling.1 (mkScrollController defaultSettings) 100 2000).1,
    by norm_num [triggerHold, mkScrollController],
    triggerHold_blocks_scrolling.2.1 (triggerHold (mkScrollController defaultSettings) 100 2000)
      { isFixating := true } 500 (by norm_num [triggerHold, mkScrollController]),
    triggerHold_blocks_scrolling.2.2 (triggerHold (mkScrollController defaultSettings) 100 2000)
      [] examplePageWindow 500 (by norm_num [triggerHold, mkScrollController])⟩

/-! ### C9: EMA convergence -/

/-- C9: with a constant target velocity `v`, one scroll tick updates
`currentVelocity` to `currentVelocity * (1 - 0.15) + v * 0.15`; the distance
to `v` contracts by exactly the factor `0.85` each tick (strictly decreasing
whenever `currentVelocity ≠ v`), the smoothed velocity never overshoots past
`v`, and over any sequence of `n` ticks the distance is `0.85 ^ n` times the
initial distance (ticks preserve `targetVelocity`, so the target stays `v`). -/
theorem ema_monotone_convergence (se : List ScrollTarget) (pw : ScrollTarget)
    (s : ScrollState) (now : ℝ) (h : s.isActive = true) :
    (runScrollTick se pw s now).currentVelocity =
        s.currentVelocity * (1 - 0.15) + s.targetVelocity * 0.15 ∧
      (runScrollTick se pw s now).targetVelocity = s.targetVelocity ∧
      |(runScrollTick se pw s now).currentVelocity - s.targetVelocity| =
        0.85 * |s.currentVelocity - s.targetVelocity| ∧
      (s.currentVelocity ≠ s.targetVelocity →
        |(runScrollTick se pw s now).currentVelocity - s.targetVelocity| <
          |s.currentVelocity - s.targetVelocity|) ∧
      (s.currentVelocity ≤ s.targetVelocity →
        s.currentVelocity ≤ (runScrollTick se pw s now).currentVelocity ∧
          (runScrollTick se pw s now).currentVelocity ≤ s.targetVelocity) ∧
      (s.targetVelocity ≤ s.currentVelocity →
        s.targetVelocity ≤ (runScrollTick se pw s now).currentVelocity ∧
          (runScrollTick se pw s now).currentVelocity ≤ s.currentVelocity) ∧
      (∀ times : List ℝ,
        |(times.foldl (fun st t => runScrollTick se pw st t) s).currentVelocity -
            s.targetVelocity| =
          0.85 ^ times.length * |s.currentVelocity - s.targetVelocity|) := by
  have hstep := runScrollTick_currentVelocity se pw s now h
  have hVSF : VELOCITY_SMOOTHING_FACTOR = 0.15 := rfl
  rw [hVSF] at hstep
  have hdiff : (runScrollTick se pw s now).currentVelocity - s.targetVelocity =
      0.85 * (s.currentVelocity - s.targetVelocity) := by
    rw [hstep]; ring
  have habs : |(runScrollTick se pw s now).currentVelocity - s.targetVelocity| =
      0.85 * |s.currentVelocity - s.targetVelocity| := by
    rw [hdiff, abs_mul, abs_of_pos (by norm_num : (0:ℝ) < 0.85)]
  refine ⟨hstep, (runScrollTick_invariants se pw s now).1, habs, ?_, ?_, ?_, ?_⟩
  · intro hne
    rw [habs]
    have hpos : 0 < |s.currentVelocity - s.targetVelocity| :=
      abs_pos.2 (sub_ne_zero.2 hne)
    linarith
  · intro hle
    constructor <;> rw [hstep] <;> linarith
  · intro hle
    constructor <;> rw [hstep] <;> linarith
  · intro times
    have := ema_fold se pw times s h
    rw [this, hVSF]
    norm_num

/-- Witness for C9 at an active controller with velocity 100 and target 0. -/
theorem ema_monotone_convergence_witness :
    exampleActiveState.isActive = true ∧
      (runScrollTick [] examplePageWindow exampleActiveState 16).currentVelocity =
        exampleActiveState.currentVelocity * (1 - 0.15) +
          exampleActiveState.targetVelocity * 0.15 :=
  ⟨rfl, (ema_monotone_convergence [] examplePageWindow exampleActiveState 16 rfl).1⟩

/-! ### C3: continuity and sign-correctness of `calculateVelocity` -/

lemma upperVelocity_continuous (s : Settings) : Continuous (upperVelocity s) := by
  have hpow : Continuous fun y : ℝ =>
      ((s.upperZoneThreshold - y) / s.upperZoneThreshold) ^ UPWARD_POWER_CURVE :=
    ((continuous_const.sub continuous_id).div_const _).rpow_const
      (fun _ => Or.inr (by norm_num [UPWARD_POWER_CURVE]))
  simpa only [upperVelocity] using
    ((hpow.neg.mul continuous_const).mul continuous_const).mul continuous_const

lemma lowerVelocity_continuous (s : Settings) : Continuous (lowerVelocity s) := by
  have hpow : Continuous fun y : ℝ =>
      ((y - s.lowerZoneThreshold) / (1 - s.lowerZoneThreshold)) ^ DOWNWARD_POWER_CURVE :=
    ((continuous_id.sub continuous_const).div_const _).rpow_const
      (fun _ => Or.inr (by norm_num [DOWNWARD_POWER_CURVE]))
  simpa only [lowerVelocity] using (hpow.mul continuous_const).mul continuous_const

lemma upperVelocity_boundary (s : Settings) : upperVelocity s s.upperZoneThreshold = 0 := by
  simp [upperVelocity, Real.zero_rpow (by norm_num [UPWARD_POWER_CURVE] :
    UPWARD_POWER_CURVE ≠ 0)]

lemma lowerVelocity_boundary (s : Settings) : lowerVelocity s s.lowerZoneThreshold = 0 := by
  simp [lowerVelocity, Real.zero_rpow (by norm_num [DOWNWARD_POWER_CURVE] :
    DOWNWARD_POWER_CURVE ≠ 0)]

lemma calculateVelocity_eq_ite (s : Settings) :
    calculateVelocity s = fun y =>
      if s.upperZoneThreshold ≤ y then
        (if y ≤ s.lowerZoneThreshold then 0 else lowerVelocity s y)
      else upperVelocity s y := by
  funext y
  by_cases h1 : y < s.upperZoneThreshold
  · simp only [calculateVelocity, if_pos h1, if_neg (not_le.2 h1)]
  · simp only [calculateVelocity, if_neg h1, if_pos (not_lt.1 h1)]
    by_cases h2 : s.lowerZoneThreshold < y
    · simp only [if_pos h2, if_neg (not_le.2 h2)]
    · simp only [if_neg h2, if_pos (not_lt.1 h2)]

lemma calculateVelocity_continuous (s : Settings)
    (hul : s.upperZoneThreshold ≤ s.lowerZoneThreshold) :
    Continuous (calculateVelocity s) := by
  rw [calculateVelocity_eq_ite]
  have hinner : Continuous fun y : ℝ =>
      if y ≤ s.lowerZoneThreshold then (0:ℝ) else lowerVelocity s y := by
    refine Continuous.if_le continuous_const (lowerVelocity_continuous s)
      continuous_id continuous_const ?_
    intro y hy
    rw [hy, lowerVelocity_boundary]
  refine Continuous.if_le hinner (upperVelocity_continuous s)
    continuous_const continuous_id ?_
  intro y hy
  rw [← hy, if_pos hul, upperVelocity_boundary]

lemma calculateVelocity_middle (s : Settings) (y : ℝ)
    (h1 : s.upperZoneThreshold ≤ y) (h2 : y ≤ s.lowerZoneThreshold) :
    calculateVelocity s y = 0 := by
  simp only [calculateVelocity, if_neg (not_lt.2 h1), if_neg (not_lt.2 h2)]

/-- C3: for every setting with `upperZoneThreshold < lowerZoneThreshold`, both
in `(0,1)`, and positive speeds and sensitivity, `calculateVelocity` is a
continuous function of `normalizedY`, strictly negative below the upper
threshold, strictly positive above the lower threshold, zero on the closed
middle zone, and its one-sided limits at both zone boundaries are 0. -/
theorem calculateVelocity_continuous_sign_correct (s : Settings)
    (h0u : 0 < s.upperZoneThreshold) (hul : s.upperZoneThreshold < s.lowerZoneThreshold)
    (hl1 : s.lowerZoneThreshold < 1) (hM : 0 < s.maxScrollSpeed)
    (hU : 0 < s.maxUpwardSpeed) (hS : 0 < s.sensitivity) :
    Continuous (calculateVelocity s) ∧
      (∀ y, y < s.upperZoneThreshold → calculateVelocity s y < 0) ∧
      (∀ y, s.lowerZoneThreshold < y → 0 < calculateVelocity s y) ∧
      (∀ y, s.upperZoneThreshold ≤ y → y ≤ s.lowerZoneThreshold →
        calculateVelocity s y = 0) ∧
      calculateVelocity s s.upperZoneThreshold = 0 ∧
      calculateVelocity s s.lowerZoneThreshold = 0 ∧
      Filter.Tendsto (calculateVelocity s)
        (nhdsWithin s.upperZoneThreshold (Set.Iio s.upperZoneThreshold)) (nhds 0) ∧
      Filter.Tendsto (calculateVelocity s)
        (nhdsWithin s.upperZoneThreshold (Set.Ioi s.upperZoneThreshold)) (nhds 0) ∧
      Filter.Tendsto (calculateVelocity s)
        (nhdsWithin s.lowerZoneThreshold (Set.Iio s.lowerZoneThreshold)) (nhds 0) ∧
      Filter.Tendsto (calculateVelocity s)
        (nhdsWithin s.lowerZoneThreshold (Set.Ioi s.lowerZoneThreshold)) (nhds 0) := by
  have hcont := calculateVelocity_continuous s hul.le
  have hu0 : calculateVelocity s s.upperZoneThreshold = 0 :=
    calculateVelocity_middle s _ le_rfl hul.le
  have hl0 : calculateVelocity s s.lowerZoneThreshold = 0 :=
    calculateVelocity_middle s _ hul.le le_rfl
  have hlimu : Filter.Tendsto (calculateVelocity s)
      (nhds s.upperZoneThreshold) (nhds 0) := by
    have := hcont.tendsto s.upperZoneThreshold
    rwa [hu0] at this
  have hliml : Filter.Tendsto (calculateVelocity s)
      (nhds s.lowerZoneThreshold) (nhds 0) := by
    have := hcont.tendsto s.lowerZoneThreshold
    rwa [hl0] at this
  refine ⟨hcont, ?_, ?_, calculateVelocity_middle s, hu0, hl0,
    hlimu.mono_left nhdsWithin_le_nhds, hlimu.mono_left nhdsWithin_le_nhds,
    hliml.mono_left nhdsWithin_le_nhds, hliml.mono_left nhdsWithin_le_nhds⟩
  · intro y hy
    have hpc : 0 < ((s.upperZoneThreshold - y) / s.upperZoneThreshold) ^ UPWARD_POWER_CURVE :=
      Real.rpow_pos_of_pos (div_pos (sub_pos.2 hy) h0u) _
    have hmul : (0:ℝ) < UPWARD_MULTIPLIER := by norm_num [UPWARD_MULTIPLIER]
    have hsr : 0 < s.sensitivity / SENSITIVITY_BASELINE :=
      div_pos hS (by norm_num [SENSITIVITY_BASELINE])
    have key := mul_pos (mul_pos (mul_pos hpc hU) hmul) hsr
    simp only [calculateVelocity, if_pos hy, upperVelocity]
    nlinarith [key]
  · intro y hy
    have hpc : 0 < ((y - s.lowerZoneThreshold) / (1 - s.lowerZoneThreshold)) ^
        DOWNWARD_POWER_CURVE :=
      Real.rpow_pos_of_pos (div_pos (sub_pos.2 hy) (sub_pos.2 hl1)) _
    have hsr : 0 < s.sensitivity / SENSITIVITY_BASELINE :=
      div_pos hS (by norm_num [SENSITIVITY_BASELINE])
    have key := mul_pos (mul_pos hpc hM) hsr
    have hyu : ¬ y < s.upperZoneThreshold := not_lt.2 (hul.trans hy).le
    simp only [calculateVelocity, if_neg hyu, if_pos hy, lowerVelocity]
    nlinarith [key]

/-- Witness for C3 at the default settings. -/
theorem calculateVelocity_continuous_sign_correct_witness :
    (0:ℝ) < defaultSettings.upperZoneThreshold ∧
      defaultSettings.upperZoneThreshold < defaultSettings.lowerZoneThreshold ∧
      defaultSettings.lowerZoneThreshold < 1 ∧
      Continuous (calculateVelocity defaultSettings) :=
  ⟨by norm_num [defaultSettings], by norm_num [defaultSettings], by norm_num [defaultSettings],
    (calculateVelocity_continuous_sign_correct defaultSettings (by norm_num [defaultSettings])
      (by norm_num [defaultSettings]) (by norm_num [defaultSettings])
      (by norm_num [defaultSettings]) (by norm_num [defaultSettings])
      (by norm_num [defaultSettings])).1⟩

/-! ### C8: fixating windows report the window's time span -/

lemma windowAfter_getLast (fd : FixationDetector) (p : GazePrediction) (now : ℝ)
    (hw : 0 ≤ fd.windowSize) :
    (windowAfter fd p now).getLast? =
      some { x := p.x, y := p.y, confidence := p.confidence, timestamp := now } := by
  unfold windowAfter
  rw [List.filter_append]
  have hp : decide (now - now ≤ fd.windowSize) = true := decide_eq_true (by linarith)
  have hone : List.filter (fun s => decide (now - s.timestamp ≤ fd.windowSize))
      [({ x := p.x, y := p.y, confidence := p.confidence, timestamp := now } : GazeSample)] =
      [({ x := p.x, y := p.y, confidence := p.confidence, timestamp := now } : GazeSample)] := by
    simp only [List.filter_cons, List.filter_nil, hp, if_true]
  rw [hone, List.getLast?_concat]

/-- C8: whenever the post-eviction sample window has at least 3 samples, mean
confidence at least the threshold, and both per-axis dispersions strictly
below the threshold, `update` reports `isFixating = true` and the fixation's
`duration` equals the window's time span: the newest sample's timestamp
(which is `now`) minus the oldest sample's timestamp. -/
theorem update_fixating_duration (fd : FixationDetector) (p : GazePrediction)
    (now innerWidth innerHeight : ℝ) (hw : 0 ≤ fd.windowSize)
    (hn : MIN_SAMPLES_FOR_FIXATION ≤ (windowAfter fd p now).length)
    (hc : fd.confidenceThreshold ≤ avgConfidence (windowAfter fd p now))
    (hdx : (calculateDispersion (windowAfter fd p now)).dispersionX < fd.dispersionThreshold)
    (hdy : (calculateDispersion (windowAfter fd p now)).dispersionY < fd.dispersionThreshold) :
    (fd.update p now innerWidth innerHeight).2.isFixating = true ∧
      ∃ fx newest, (fd.update p now innerWidth innerHeight).2.fixation = some fx ∧
        (windowAfter fd p now).getLast? = some newest ∧ newest.timestamp = now ∧
        fx.duration = newest.timestamp - (windowAfter fd p now).headI.timestamp := by
  simp only [FixationDetector.update]
  rw [if_neg (not_lt.2 hn), if_neg (not_lt.2 hc), if_pos ⟨hdx, hdy⟩]
  exact ⟨rfl, _, _, rfl, windowAfter_getLast fd p now hw, rfl, rfl⟩

/-- A pair of identical gaze samples already in the detector buffer. -/
def exampleFixationBuffer : List GazeSample :=
  [{ x := 100, y := 100, confidence := 0.85, timestamp := 0 },
    { x := 100, y := 100, confidence := 0.85, timestamp := 50 }]

/-- Default-configured detector holding `exampleFixationBuffer`. -/
def exampleDetectorState : FixationDetector :=
  { mkFixationDetector with gazeBuffer := exampleFixationBuffer }

/-- A third identical prediction arriving at time 100. -/
def examplePrediction : GazePrediction := { x := 100, y := 100, confidence := 0.85 }

/-- Witness for C8: a three-sample, zero-dispersion, high-confidence window. -/
theorem update_fixating_duration_witness :
    (0:ℝ) ≤ exampleDetectorState.windowSize ∧
      MIN_SAMPLES_FOR_FIXATION ≤
        (windowAfter exampleDetectorState examplePrediction 100).length ∧
      exampleDetectorState.confidenceThreshold ≤
        avgConfidence (windowAfter exampleDetectorState examplePrediction 100) ∧
      (calculateDispersion (windowAfter exampleDetectorState examplePrediction 100)).dispersionX <
        exampleDetectorState.dispersionThreshold ∧
      (calculateDispersion (windowAfter exampleDetectorState examplePrediction 100)).dispersionY <
        exampleDetectorState.dispersionThreshold ∧
      (exampleDetectorState.update examplePrediction 100 1000 800).2.isFixating = true := by
  have hwin : windowAfter exampleDetectorState examplePrediction 100 =
      [{ x := 100, y := 100, confidence := 0.85, timestamp := 0 },
        { x := 100, y := 100, confidence := 0.85, timestamp := 50 },
        { x := 100, y := 100, confidence := 0.85, timestamp := 100 }] := by
    norm_num [windowAfter, exampleDetectorState, mkFixationDetector, exampleFixationBuffer,
      examplePrediction, List.filter_cons, decide_eq_true_eq]
  have hw : (0:ℝ) ≤ exampleDetectorState.windowSize := by
    norm_num [exampleDetectorState, mkFixationDetector]
  have hn : MIN_SAMPLES_FOR_FIXATION ≤
      (windowAfter exampleDetectorState examplePrediction 100).length := by
    rw [hwin]; norm_num [MIN_SAMPLES_FOR_FIXATION]
  have hc : exampleDetectorState.confidenceThreshold ≤
      avgConfidence (windowAfter exampleDetectorState examplePrediction 100) := by
    rw [hwin]
    norm_num [avgConfidence, exampleDetectorState, mkFixationDetector,
      List.foldl_cons, List.foldl_nil]
  have hdx : (calculateDispersion
      (windowAfter exampleDetectorState examplePrediction 100)).dispersionX <
      exampleDetectorState.dispersionThreshold := by
    rw [hwin]
    norm_num [calculateDispersion, exampleDetectorState, mkFixationDetector,
      List.foldl_cons, List.foldl_nil, Real.sqrt_zero]
  have hdy : (calculateDispersion
      (windowAfter exampleDetectorState examplePrediction 100)).dispersionY <
      exampleDetectorState.dispersionThreshold := by
    rw [hwin]
    norm_num [calculateDispersion, exampleDetectorState, mkFixationDetector,
      List.foldl_cons, List.foldl_nil, Real.sqrt_zero]
  exact ⟨hw, hn, hc, hdx, hdy,
    (update_fixating_duration exampleDetectorState examplePrediction 100 1000 800
      hw hn hc hdx hdy).1⟩

/-! ### C4: per-point calibration advancement -/

lemma collectStep_complete (x y startTime : ℝ) (st : CollectState) (now : ℝ)
    (pred : Option GazePrediction)
    (h : REQUIRED_GAZE_DURATION ≤ accumulatedAfter x y st now pred) :
    (collectStep x y startTime st now pred).2 = CollectOutcome.completed := by
  have h700 : (0:ℝ) < REQUIRED_GAZE_DURATION := by norm_num [REQUIRED_GAZE_DURATION]
  have hprog : (1:ℝ) ≤ min (accumulatedAfter x y st now pred / REQUIRED_GAZE_DURATION) 1 :=
    le_min ((le_div_iff₀ h700).2 (by linarith)) le_rfl
  simp only [collectStep]
  rw [if_pos hprog]

lemma collectStep_timeout (x y startTime : ℝ) (st : CollectState) (now : ℝ)
    (pred : Option GazePrediction) (h : MAX_CALIBRATION_DURATION < now - startTime) :
    (collectStep x y startTime st now pred).2 ≠ CollectOutcome.continued := by
  simp only [collectStep]
  by_cases h1 : (1:ℝ) ≤ min (accumulatedAfter x y st now pred / REQUIRED_GAZE_DURATION) 1
  · rw [if_pos h1]; simp
  · rw [if_neg h1, if_pos h]; simp

lemma collectStep_continued (x y startTime : ℝ) (st : CollectState) (now : ℝ)
    (pred : Option GazePrediction)
    (h : (collectStep x y startTime st now pred).2 = CollectOutcome.continued) :
    accumulatedAfter x y st now pred < REQUIRED_GAZE_DURATION ∧
      now - startTime ≤ MAX_CALIBRATION_DURATION := by
  have h700 : (0:ℝ) < REQUIRED_GAZE_DURATION := by norm_num [REQUIRED_GAZE_DURATION]
  simp only [collectStep] at h
  by_cases h1 : (1:ℝ) ≤ min (accumulatedAfter x y st now pred / REQUIRED_GAZE_DURATION) 1
  · rw [if_pos h1] at h
    exact absurd h (by simp)
  · rw [if_neg h1] at h
    by_cases h2 : MAX_CALIBRATION_DURATION < now - startTime
    · rw [if_pos h2] at h
      exact absurd h (by simp)
    · refine ⟨?_, not_lt.1 h2⟩
      have hlt : min (accumulatedAfter x y st now pred / REQUIRED_GAZE_DURATION) 1 < 1 :=
        not_le.1 h1
      rcases min_lt_iff.1 hlt with hq | hq
      · exact (div_lt_one h700).1 hq
      · exact absurd hq (lt_irrefl 1)

lemma collectRun_resolves (x y startTime : ℝ) :
    ∀ (frames : List (ℝ × Option GazePrediction)) (st : CollectState),
      (∃ f ∈ frames, MAX_CALIBRATION_DURATION < f.1 - startTime) →
      collectRun x y startTime st frames ≠ none
  | [], _, h => by
    rcases h with ⟨f, hf, _⟩
    exact absurd hf (List.not_mem_nil f)
  | hd :: tl, st, h => by
    rcases h with ⟨f, hf, hfgt⟩
    rcases hstep : collectStep x y startTime st hd.1 hd.2 with ⟨st2, o⟩
    rcases List.mem_cons.1 hf with rfl | htl
    · have hne := collectStep_timeout x y startTime st f.1 f.2 hfgt
      rw [hstep] at hne
      simp only [collectRun, hstep]
      cases o
      · simp
      · simp
      · exact absurd rfl hne
    · simp only [collectRun, hstep]
      cases o
      · simp
      · simp
      · exact collectRun_resolves x y startTime tl st2 ⟨f, htl, hfgt⟩

/-- C4 (amended): during calibration of a single point, the collection loop
resolves at any frame where `accumulatedGazeMs` reaches 700 even if the
3000 ms maximum has not elapsed; conversely it resolves at any frame whose
total elapsed time strictly exceeds 3000 ms even if `accumulatedGazeMs` is
below 700 (at exactly 3000 ms it requests one more frame); a frame only
continues the loop when neither gate has fired, so no point blocks forever
once a frame past the timeout arrives. -/
theorem collect_point_advance (x y startTime : ℝ) (st : CollectState) (now : ℝ)
    (pred : Option GazePrediction) :
    (REQUIRED_GAZE_DURATION ≤ accumulatedAfter x y st now pred →
        (collectStep x y startTime st now pred).2 = CollectOutcome.completed) ∧
      (MAX_CALIBRATION_DURATION < now - startTime →
        (collectStep x y startTime st now pred).2 ≠ CollectOutcome.continued) ∧
      ((collectStep x y startTime st now pred).2 = CollectOutcome.continued →
        accumulatedAfter x y st now pred < REQUIRED_GAZE_DURATION ∧
          now - startTime ≤ MAX_CALIBRATION_DURATION) ∧
      (∀ (frames : List (ℝ × Option GazePrediction)) (st' : CollectState),
        (∃ f ∈ frames, MAX_CALIBRATION_DURATION < f.1 - startTime) →
        collectRun x y startTime st' frames ≠ none) :=
  ⟨collectStep_complete x y startTime st now pred,
    collectStep_timeout x y startTime st now pred,
    collectStep_continued x y startTime st now pred,
    fun frames st' => collectRun_resolves x y startTime frames st'⟩

/-- C4 counterexample: at a frame whose elapsed time is exactly 3000 ms with
no accumulated gaze time, the loop does not advance — it requests another
frame. -/
theorem collect_at_exact_timeout_continues :
    (collectStep 0 0 0 { accumulatedGazeTime := 0, lastUpdateTime := 0 } 3000 none).2 =
      CollectOutcome.continued := by
  have hnotlook : ¬ isLookingAtTarget 0 0 none := fun h => h
  simp only [collectStep, accumulatedAfter, if_neg hnotlook]
  rw [if_neg (by norm_num [REQUIRED_GAZE_DURATION]),
    if_neg (by norm_num [MAX_CALIBRATION_DURATION])]

/-- Witness for C4's amended theorem: an on-target frame pushing the
accumulator to 710 ms completes at 20 ms elapsed, and a frame at 3001 ms
with nothing accumulated resolves via the timeout gate. -/
theorem collect_point_advance_witness :
    REQUIRED_GAZE_DURATION ≤ accumulatedAfter 0 0
        { accumulatedGazeTime := 690, lastUpdateTime := 0 } 20
        (some { x := 0, y := 0, confidence := 0.9 }) ∧
      (collectStep 0 0 0 { accumulatedGazeTime := 690, lastUpdateTime := 0 } 20
          (some { x := 0, y := 0, confidence := 0.9 })).2 = CollectOutcome.completed ∧
      MAX_CALIBRATION_DURATION < (3001:ℝ) - 0 ∧
      (collectStep 0 0 0 { accumulatedGazeTime := 0, lastUpdateTime := 0 } 3001 none).2 ≠
        CollectOutcome.continued := by
  have hlook : isLookingAtTarget 0 0 (some { x := 0, y := 0, confidence := 0.9 }) := by
    refine ⟨by norm_num [MIN_CONFIDENCE_FOR_CALIBRATION], ?_⟩
    norm_num [GAZE_RADIUS, Real.sqrt_zero]
  have hacc : accumulatedAfter 0 0 { accumulatedGazeTime := 690, lastUpdateTime := 0 } 20
      (some { x := 0, y := 0, confidence := 0.9 }) = 710 := by
    rw [accumulatedAfter, if_pos hlook]
    norm_num
  have h1 : REQUIRED_GAZE_DURATION ≤ accumulatedAfter 0 0
      { accumulatedGazeTime := 690, lastUpdateTime := 0 } 20
      (some { x := 0, y := 0, confidence := 0.9 }) := by
    rw [hacc]; norm_num [REQUIRED_GAZE_DURATION]
  have h3 : MAX_CALIBRATION_DURATION < (3001:ℝ) - 0 := by
    norm_num [MAX_CALIBRATION_DURATION]
  exact ⟨h1, (collect_point_advance 0 0 0 _ 20 _).1 h1, h3,
    (collect_point_advance 0 0 0 _ 3001 none).2.1 h3⟩

/-! ### C10: non-5/9 point counts collect nothing -/

/-- C10: for every `numPoints` other than 5 or 9,
`generateCalibrationPoints` returns the empty list, and the calibration
sequence over that list collects no per-point data: its trace is just the
save followed by the completion report. -/
theorem generateCalibrationPoints_other_empty :
    (∀ n : ℕ, n ≠ 5 → n ≠ 9 → generateCalibrationPoints n = []) ∧
      (∀ n : ℕ, n ≠ 5 → n ≠ 9 → ∀ viewportWidth viewportHeight : ℚ,
        runCalibrationSequence (generateCalibrationPoints n) viewportWidth viewportHeight =
          [CalEvent.saveCalibration, CalEvent.completed]) := by
  have h : ∀ n : ℕ, n ≠ 5 → n ≠ 9 → generateCalibrationPoints n = [] := by
    intro n h5 h9
    simp [generateCalibrationPoints, h5, h9]
  exact ⟨h, fun n h5 h9 vw vh => by rw [h n h5 h9]; rfl⟩

/-- Witness for C10 at a 7-point request. -/
theorem generateCalibrationPoints_other_empty_witness :
    (7:ℕ) ≠ 5 ∧ (7:ℕ) ≠ 9 ∧ generateCalibrationPoints 7 = [] ∧
      runCalibrationSequence (generateCalibrationPoints 7) 1000 800 =
        [CalEvent.saveCalibration, CalEvent.completed] :=
  ⟨by decide, by decide, generateCalibrationPoints_other_empty.1 7 (by decide) (by decide),
    generateCalibrationPoints_other_empty.2 7 (by decide) (by decide) 1000 800⟩

/-! ### C6: numeric settings are clamped and snapped, never rejected -/

lemma jsRound_intCast (k : ℤ) : jsRound (k : ℚ) = k := by
  unfold jsRound
  rw [add_comm, Int.floor_add_int]
  norm_num

lemma jsRound_mono {q r : ℚ} (h : q ≤ r) : jsRound q ≤ jsRound r :=
  Int.floor_mono (add_le_add_right h _)

lemma snap_bounds (lo hi stp v : ℚ) (hstp : 0 < stp) (a b : ℤ)
    (hlo : lo = (a : ℚ) * stp) (hhi : hi = (b : ℚ) * stp) (hab : lo ≤ hi) :
    lo ≤ (jsRound (max lo (min hi v) / stp) : ℚ) * stp ∧
      (jsRound (max lo (min hi v) / stp) : ℚ) * stp ≤ hi := by
  have hc1 : lo ≤ max lo (min hi v) := le_max_left _ _
  have hc2 : max lo (min hi v) ≤ hi := max_le hab (min_le_left _ _)
  have ha : (a : ℚ) ≤ max lo (min hi v) / stp :=
    (le_div_iff₀ hstp).2 (by rw [← hlo]; exact hc1)
  have hb : max lo (min hi v) / stp ≤ (b : ℚ) :=
    (div_le_iff₀ hstp).2 (by rw [← hhi]; exact hc2)
  have h1 : a ≤ jsRound (max lo (min hi v) / stp) := by
    have := jsRound_mono ha
    rwa [jsRound_intCast] at this
  have h2 : jsRound (max lo (min hi v) / stp) ≤ b := by
    have := jsRound_mono hb
    rwa [jsRound_intCast] at this
  constructor
  · calc lo = (a : ℚ) * stp := hlo
      _ ≤ (jsRound (max lo (min hi v) / stp) : ℚ) * stp :=
        mul_le_mul_of_nonneg_right (by exact_mod_cast h1) hstp.le
  · calc (jsRound (max lo (min hi v) / stp) : ℚ) * stp ≤ (b : ℚ) * stp :=
        mul_le_mul_of_nonneg_right (by exact_mod_cast h2) hstp.le
      _ = hi := hhi.symm

lemma toFixed2_on_twentieths (k : ℤ) : toFixed2 ((k : ℚ) * (1/20)) = (k : ℚ) * (1/20) := by
  unfold toFixed2
  have h5 : ((k : ℚ) * (1/20)) * 100 = ((5 * k : ℤ) : ℚ) := by push_cast; ring
  rw [h5, jsRound_intCast]
  push_cast
  ring

/-- C6: for every numeric setting with a validation rule, `validateSetting`
returns a value clamped into the rule's `[min, max]` range and snapped to an
integer multiple of the rule's step (never rejected); in particular an update
of `maxScrollSpeed = 50` (below the minimum 200) stores 200. -/
theorem validateSetting_clamps_snaps :
    (∀ (key : SettingKey) (rules : ValidationRule) (v : ℚ),
        VALIDATION_RULES key = some rules →
        rules.min ≤ validateSetting key v ∧ validateSetting key v ≤ rules.max ∧
          ∃ k : ℤ, validateSetting key v = (k : ℚ) * rules.step) ∧
      validateSetting SettingKey.maxScrollSpeed 50 = 200 := by
  constructor
  · intro key rules v h
    cases key <;> simp only [VALIDATION_RULES] at h <;>
      [skip; skip; skip; skip; skip; skip; exact absurd h (by simp)] <;>
      obtain rfl := Option.some.inj h
    case maxScrollSpeed =>
      simp only [validateSetting, VALIDATION_RULES]
      rw [if_neg (by norm_num)]
      have hs := snap_bounds 200 1600 50 v (by norm_num) 4 32 (by norm_num) (by norm_num)
        (by norm_num)
      exact ⟨hs.1, hs.2, jsRound (max 200 (min 1600 v) / 50), rfl⟩
    case maxUpwardSpeed =>
      simp only [validateSetting, VALIDATION_RULES]
      rw [if_neg (by norm_num)]
      have hs := snap_bounds 100 800 50 v (by norm_num) 2 16 (by norm_num) (by norm_num)
        (by norm_num)
      exact ⟨hs.1, hs.2, jsRound (max 100 (min 800 v) / 50), rfl⟩
    case sensitivity =>
      simp only [validateSetting, VALIDATION_RULES]
      rw [if_neg (by norm_num)]
      have hs := snap_bounds 10 100 5 v (by norm_num) 2 20 (by norm_num) (by norm_num)
        (by norm_num)
      exact ⟨hs.1, hs.2, jsRound (max 10 (min 100 v) / 5), rfl⟩
    case upperZoneThreshold =>
      simp only [validateSetting, VALIDATION_RULES]
      rw [if_pos (by norm_num), show (0.05:ℚ) = 1/20 from by norm_num,
        toFixed2_on_twentieths]
      have hs := snap_bounds 0.1 0.4 (1/20) v (by norm_num) 2 8 (by norm_num) (by norm_num)
        (by norm_num)
      exact ⟨hs.1, hs.2, jsRound (max 0.1 (min 0.4 v) / (1/20)), rfl⟩
    case lowerZoneThreshold =>
      simp only [validateSetting, VALIDATION_RULES]
      rw [if_pos (by norm_num), show (0.05:ℚ) = 1/20 from by norm_num,
        toFixed2_on_twentieths]
      have hs := snap_bounds 0.6 0.9 (1/20) v (by norm_num) 12 18 (by norm_num) (by norm_num)
        (by norm_num)
      exact ⟨hs.1, hs.2, jsRound (max 0.6 (min 0.9 v) / (1/20)), rfl⟩
    case confidenceThreshold =>
      simp only [validateSetting, VALIDATION_RULES]
      rw [if_pos (by norm_num), show (0.05:ℚ) = 1/20 from by norm_num,
        toFixed2_on_twentieths]
      have hs := snap_bounds 0.3 0.9 (1/20) v (by norm_num) 6 18 (by norm_num) (by norm_num)
        (by norm_num)
      exact ⟨hs.1, hs.2, jsRound (max 0.3 (min 0.9 v) / (1/20)), rfl⟩
  · have h4 : jsRound (max (200:ℚ) (min 1600 50) / 50) = 4 := by
      norm_num [jsRound]
    simp only [validateSetting, VALIDATION_RULES]
    rw [if_neg (by norm_num), h4]
    norm_num

/-- Witness for C6: the spec's example, `maxScrollSpeed = 50` below the
minimum, is stored as 200, inside the valid range and on the 50-step grid. -/
theorem validateSetting_clamps_snaps_witness :
    VALIDATION_RULES SettingKey.maxScrollSpeed =
        some { min := 200, max := 1600, step := 50 } ∧
      (200:ℚ) ≤ validateSetting SettingKey.maxScrollSpeed 50 ∧
      validateSetting SettingKey.maxScrollSpeed 50 ≤ 1600 ∧
      validateSetting SettingKey.maxScrollSpeed 50 = 200 :=
  ⟨rfl,
    (validateSetting_clamps_snaps.1 SettingKey.maxScrollSpeed
      { min := 200, max := 1600, step := 50 } 50 rfl).1,
    (validateSetting_clamps_snaps.1 SettingKey.maxScrollSpeed
      { min := 200, max := 1600, step := 50 } 50 rfl).2.1,
    validateSetting_clamps_snaps.2⟩

end

end Gaze
